import Mathlib

/-!
Verification development for the articlewriter repository.

The subject is the configuration loader (`src/api/app/config.py` together with
`src/api/app/constants.py`) and the database connection manager
(`src/api/app/utils/db_utils.py`).  The Python code is shallowly embedded:

* INI files are modelled as the section/key/value lists that Python's
  `ConfigParser` produces;
* the filesystem is an explicit record of existing files and directories;
* Python dicts are association lists with last-binding-wins lookup;
* Python exceptions are `Except` errors, and functions that catch all of
  their exceptions and return a value instead are total.
-/

namespace ArticleWriter

/-- Lookup in a Python-dict model: an association list where the most recent
binding of a key shadows the older ones (see `dinsert`). -/
def dlookup {α : Type} : List (String × α) → String → Option α
  | [], _ => none
  | (k1, v) :: rest, k => if k1 = k then some v else dlookup rest k

/-- Model of a Python dict update `d[k] = v`: the new binding is placed in
front and older bindings of the same key are dropped, so `dlookup` always
sees the newest value, exactly as a dict would. -/
def dinsert {α : Type} (d : List (String × α)) (k : String) (v : α) :
    List (String × α) :=
  (k, v) :: d.filter (fun kv => kv.1 != k)

/-- Model of the Python dict merge `(**a, **b)` (values of `b` win): every
binding of `b` is inserted into `a`. -/
def dmerge {α : Type} (a b : List (String × α)) : List (String × α) :=
  b.foldl (fun acc kv => dinsert acc kv.1 kv.2) a

/-- Explicit filesystem state: which paths exist as files, which as
directories, which directories are writable and which missing directories
`os.makedirs` would be able to create. -/
structure FS where
  files : List String
  dirs : List String
  writable : List String
  creatable : List String
deriving DecidableEq, Repr

def FS.pathExists (fs : FS) (p : String) : Bool :=
  fs.files.contains p || fs.dirs.contains p

def FS.isDir (fs : FS) (p : String) : Bool := fs.dirs.contains p

def FS.isWritable (fs : FS) (p : String) : Bool := fs.writable.contains p

def FS.canCreate (fs : FS) (p : String) : Bool := fs.creatable.contains p

/-- Effect of a successful `os.makedirs(p, exist_ok=True)`. -/
def FS.mkdirs (fs : FS) (p : String) : FS :=
  { fs with dirs := p :: fs.dirs, writable := p :: fs.writable }

def FS.addFile (fs : FS) (p : String) : FS := { fs with files := p :: fs.files }

def FS.removeFile (fs : FS) (p : String) : FS :=
  { fs with files := fs.files.filter (fun q => q != p) }

/-- Effect of `shutil.copy2(src, dst)` when `src` exists (its callers in the
embedded code only reach it after checking existence). -/
def FS.copyFile (fs : FS) (src dst : String) : FS :=
  if fs.files.contains src then fs.addFile dst else fs

/-- Error kinds raised by the configuration code: `ConfigValueError`
(config.py), a pydantic `ValidationError`, and an uncaught Python `KeyError`
from a plain dict subscript. -/
inductive ConfigError where
  | valueError (msg : String)
  | validationError (msg : String)
  | keyError (key : String)
deriving DecidableEq, Repr

/-- ASCII upper-casing of one character, as Python `str.upper` does on the
ASCII configuration strings considered here. -/
def pyUpperChar (c : Char) : Char :=
  if c.isLower then Char.ofNat (c.toNat - 32) else c

/-- ASCII lower-casing of one character. -/
def pyLowerChar (c : Char) : Char :=
  if c.isUpper then Char.ofNat (c.toNat + 32) else c

/-- Python `s.upper()` (ASCII), defined over the character list so that it
evaluates inside the kernel. -/
def strUpper (s : String) : String := String.mk (s.data.map pyUpperChar)

/-- Python `s.lower()` (ASCII). -/
def strLower (s : String) : String := String.mk (s.data.map pyLowerChar)

/-- Split a character list at every occurrence of `sep`, keeping empty
chunks, like Python `str.split(sep)`. -/
def splitChars (sep : Char) : List Char → List (List Char)
  | [] => [[]]
  | c :: rest =>
    let r := splitChars sep rest
    if c = sep then [] :: r
    else
      match r with
      | h :: t => (c :: h) :: t
      | [] => [[c]]

/-- Numeric value of a digit list. -/
def digitsVal (cs : List Char) : Nat :=
  cs.foldl (fun acc c => acc * 10 + (c.toNat - 48)) 0

/-- Parse a non-empty all-digit character list. -/
def parseNatChars (cs : List Char) : Option Nat :=
  if decide (1 ≤ cs.length) && cs.all Char.isDigit then some (digitsVal cs) else none

/-- Python `int(...)` applied to a string: an optional minus sign followed
by digits (ConfigParser already strips the surrounding whitespace that
`int()` would also tolerate). -/
def pyParseInt (s : String) : Option Int :=
  match s.data with
  | '-' :: rest => (parseNatChars rest).map (fun n => -(n : Int))
  | cs => (parseNatChars cs).map (fun n => (n : Int))

/-- Range part of `validate_port` (config.py line 254): the integer must be
in the interval 1..65535. -/
def validate_port_int (n : Int) : Except ConfigError Int :=
  if n < 1 || 65535 < n then
    .error (.valueError "Port number is out of valid range (1-65535).")
  else .ok n

/-- `validate_port` (config.py lines 236-257) on a string argument: the
string must parse as an integer, which must then be in range. -/
def validate_port_str (s : String) : Except ConfigError Int :=
  match pyParseInt s with
  | none => .error (.valueError ("Invalid port number: " ++ s ++ ". Must be a valid integer."))
  | some n => validate_port_int n

/-- One label of the hostname regular expression in `validate_host`
(config.py line 269): 1 to 63 characters, alphanumeric or hyphen, starting
and ending alphanumeric. -/
def validHostLabel (cs : List Char) : Bool :=
  decide (1 ≤ cs.length) && decide (cs.length ≤ 63) &&
  cs.all (fun c => c.isAlphanum || c == '-') &&
  (match cs.head? with | some c => c.isAlphanum | none => false) &&
  (match cs.getLast? with | some c => c.isAlphanum | none => false)

/-- The full-anchored hostname pattern: dot-separated valid labels. -/
def hostnameMatches (h : String) : Bool :=
  (splitChars '.' h.data).all validHostLabel

/-- The dotted-quad pattern of `validate_host` (config.py line 270): four
dot-separated groups of one to three digits. -/
def ipMatches (h : String) : Bool :=
  let parts := splitChars '.' h.data
  parts.length == 4 &&
  parts.all (fun p =>
    decide (1 ≤ p.length) && decide (p.length ≤ 3) && p.all Char.isDigit)

/-- `validate_host` (config.py lines 259-281): the hostname pattern is tried
first; only a string failing it but matching the dotted-quad pattern has its
octets range-checked. -/
def validate_host (host : String) : Except ConfigError String :=
  if hostnameMatches host then .ok host
  else if ipMatches host then
    if (splitChars '.' host.data).all (fun p => decide (digitsVal p ≤ 255)) then
      .ok host
    else .error (.valueError "Invalid IP address format.")
  else .error (.valueError "Invalid hostname format.")

/-- `validate_user` (config.py lines 306-318): alphanumeric and underscore
only, at least one character. -/
def validate_user (user : String) : Except ConfigError String :=
  if decide (1 ≤ user.length) && user.toList.all (fun c => c.isAlphanum || c == '_') then
    .ok user
  else .error (.valueError "DB_USER must contain only alphanumeric characters and underscores.")

/-- The fixed punctuation set accepted by `validate_password`. -/
def passwordSpecials : List Char := "!@#$%^&*(),.?\":\x7b\x7d|<>".toList

/-- `validate_password` (config.py lines 320-346): length at least 8 and an
uppercase letter, a lowercase letter, a digit and a special character. -/
def validate_password (password : String) : Except ConfigError String :=
  if password.length < 8 then
    .error (.valueError "DB_PASSWORD must be at least 8 characters long")
  else if !(password.toList.any Char.isUpper) then
    .error (.valueError "DB_PASSWORD must contain at least one uppercase letter")
  else if !(password.toList.any Char.isLower) then
    .error (.valueError "DB_PASSWORD must contain at least one lowercase letter")
  else if !(password.toList.any Char.isDigit) then
    .error (.valueError "DB_PASSWORD must contain at least one digit")
  else if !(password.toList.any (fun c => passwordSpecials.contains c)) then
    .error (.valueError "DB_PASSWORD must contain at least one special character")
  else .ok password

/-- Characters of the url-safe base64 alphabet. -/
def urlsafeB64Char (c : Char) : Bool := c.isAlphanum || c == '_' || c == '-'

/-- `validate_secret` (config.py lines 348-372).  The source also calls
`base64.urlsafe_b64decode(secret + three pad chars)`; for a string that has
already passed the alphabet check this raises `binascii.Error` exactly when
the number of data characters is 1 more than a multiple of 4, and its result
is otherwise non-empty for a 32+ character input, so that is how the decode
step is embedded. -/
def validate_secret (secret : String) : Except ConfigError String :=
  if secret.length < 32 then
    .error (.valueError "SECRET_KEY must be at least 32 characters long")
  else if !(decide (1 ≤ secret.length) && secret.toList.all urlsafeB64Char) then
    .error (.valueError "SECRET_KEY must be a valid url-safe base64-encoded string")
  else if secret.length % 4 == 1 then
    .error (.valueError "binascii.Error: invalid base64-encoded string")
  else if !(secret.toList.any Char.isUpper) then
    .error (.valueError "SECRET_KEY must contain at least one uppercase letter")
  else if !(secret.toList.any Char.isLower) then
    .error (.valueError "SECRET_KEY must contain at least one lowercase letter")
  else if !(secret.toList.any Char.isDigit) then
    .error (.valueError "SECRET_KEY must contain at least one digit")
  else .ok secret

/-- `validate_dir` (config.py lines 283-304).  The branch that creates a
missing directory has no `return` statement in the source, so on success it
falls through and yields Python `None`: this is embedded as `.ok none`. -/
def validate_dir (fs : FS) (dir : String) : Except ConfigError (Option String) :=
  if !(fs.pathExists dir) then
    if fs.canCreate dir then .ok none
    else .error (.valueError ("Invalid directory path: " ++ dir ++ ". Directory does not exist and could not be created."))
  else if !(fs.isDir dir) then
    .error (.valueError ("Invalid directory path: " ++ dir ++ ". Path exists but is not a directory."))
  else if !(fs.isWritable dir) then
    .error (.valueError ("Invalid directory path: " ++ dir ++ ". Directory is not writable."))
  else .ok (some dir)

/-- pydantic's lax string-to-boolean coercion, used for `GlobalConfig.debug`. -/
def pyParseBool (s : String) : Option Bool :=
  let t := strLower s
  if ["true", "t", "yes", "y", "on", "1"].contains t then some true
  else if ["false", "f", "no", "n", "off", "0"].contains t then some false
  else none

/-- Values occurring in the merged DATABASE mapping: strings from the INI
file, and the integers and string lists appearing in `CONFIG_DEFAULTS`. -/
inductive CVal where
  | str (v : String)
  | intv (n : Int)
  | strs (vs : List String)
deriving DecidableEq, Repr

/-- `GlobalConfig` (config.py lines 424-443). -/
structure GlobalConfig where
  env : String
  port : Int
  log_level : String
  debug : Bool
  secret : String
deriving DecidableEq, Repr

def GlobalConfig.defaults : GlobalConfig :=
  { env := "development", port := 8000, log_level := "info", debug := false,
    secret := "default_insecure_key_01234567890_" }

/-- `DatabaseConfig` (config.py lines 374-421). -/
structure DatabaseConfig where
  type : String
  name : String
  dir : Option String
  user : Option String
  password : Option String
  host : Option String
  port : Option Int
deriving DecidableEq, Repr

def DatabaseConfig.defaults : DatabaseConfig :=
  { type := "sqlite", name := "app", dir := none, user := none,
    password := none, host := none, port := none }

/-- `UserConfig` (config.py lines 446-447). -/
structure UserConfig where
  default_role : String
deriving DecidableEq, Repr

def UserConfig.defaults : UserConfig := { default_role := "viewer" }

/-- `AIConfig` (config.py lines 450-453). -/
structure AIConfig where
  default_provider : String
  default_model : String
  api_key : String
deriving DecidableEq, Repr

def AIConfig.defaults : AIConfig :=
  { default_provider := "xai", default_model := "grok-2-1212", api_key := "your_api_key" }

/-- `Config` (config.py lines 456-463). -/
structure Config where
  global_ : GlobalConfig
  db : DatabaseConfig
  user : UserConfig
  ai : AIConfig
deriving DecidableEq, Repr

/-- Validation of a `GlobalConfig` from a section mapping, following the
pydantic model: a field that is absent takes its declared default without
running its validator; a present field is validated.  pydantic collects all
field errors before raising; this embedding reports the first, which is
equivalent for the success/failure questions treated here. -/
def GlobalConfig.fromDict (d : List (String × String)) : Except ConfigError GlobalConfig := do
  let env ← match dlookup d "ENV_MODE" with
    | none => pure "development"
    | some v =>
      if ["development", "dev", "production", "prod", "testing"].contains v then pure v
      else Except.error (.validationError ("ENV_MODE: unexpected value " ++ v))
  let port ← match dlookup d "PORT" with
    | none => pure (8000 : Int)
    | some v => validate_port_str v
  let log_level ← match dlookup d "LOG_LEVEL" with
    | none => pure "info"
    | some v =>
      if ["debug", "DEBUG", "info", "INFO", "warning", "WARNING", "error", "ERROR", "critical", "CRITICAL"].contains v then pure v
      else Except.error (.validationError ("LOG_LEVEL: unexpected value " ++ v))
  let debug ← match dlookup d "DEBUG" with
    | none => pure false
    | some v =>
      match pyParseBool v with
      | some b => pure b
      | none => Except.error (.validationError "DEBUG: input should be a valid boolean")
  let secret ← match dlookup d "SECRET_KEY" with
    | none => pure "default_insecure_key_01234567890_"
    | some v => validate_secret v
  pure { env := env, port := port, log_level := log_level, debug := debug, secret := secret }

/-- Validation of a `DatabaseConfig` from the merged DATABASE mapping.
Unknown keys in the mapping (for instance the `ALIASES` entry merged in from
`CONFIG_DEFAULTS`) are ignored, because these pydantic models keep the
default `extra` behaviour, which is `ignore`. -/
def DatabaseConfig.fromDict (fs : FS) (d : List (String × CVal)) : Except ConfigError DatabaseConfig := do
  let type ← match dlookup d "DB_TYPE" with
    | none => pure "sqlite"
    | some (.str v) =>
      if ["sqlite", "postgresql", "postgres"].contains v then pure v
      else Except.error (.validationError ("DB_TYPE: unexpected value " ++ v))
    | some _ => Except.error (.validationError "DB_TYPE: input should be a valid string")
  let name ← match dlookup d "DB_NAME" with
    | none => pure "app"
    | some (.str v) =>
      if decide (1 ≤ v.length) then pure v
      else Except.error (.validationError "DB_NAME: string should have at least 1 character")
    | some _ => Except.error (.validationError "DB_NAME: input should be a valid string")
  let dir ← match dlookup d "DB_DIR" with
    | none => pure (none : Option String)
    | some (.str v) => validate_dir fs v
    | some _ => Except.error (.validationError "DB_DIR: input should be a valid string")
  let user ← match dlookup d "DB_USER" with
    | none => pure (none : Option String)
    | some (.str v) => do pure (some (← validate_user v))
    | some _ => Except.error (.validationError "DB_USER: input should be a valid string")
  let password ← match dlookup d "DB_PASSWORD" with
    | none => pure (none : Option String)
    | some (.str v) => do pure (some (← validate_password v))
    | some _ => Except.error (.validationError "DB_PASSWORD: input should be a valid string")
  let host ← match dlookup d "DB_HOST" with
    | none => pure (none : Option String)
    | some (.str v) => do pure (some (← validate_host v))
    | some _ => Except.error (.validationError "DB_HOST: input should be a valid string")
  let port ← match dlookup d "DB_PORT" with
    | none => pure (none : Option Int)
    | some (.str v) =>
      (match pyParseInt v with
       | none => Except.error (.validationError "DB_PORT: input should be a valid integer")
       | some n => do pure (some (← validate_port_int n)))
    | some (.intv n) => do pure (some (← validate_port_int n))
    | some _ => Except.error (.validationError "DB_PORT: input should be a valid integer")
  pure { type := type, name := name, dir := dir, user := user,
         password := password, host := host, port := port }

/-- Validation of a `UserConfig` from a section mapping. -/
def UserConfig.fromDict (d : List (String × String)) : Except ConfigError UserConfig := do
  let role ← match dlookup d "DEFAULT_ROLE" with
    | none => pure "viewer"
    | some v =>
      if ["admin", "editor", "viewer"].contains v then pure v
      else Except.error (.validationError ("DEFAULT_ROLE: unexpected value " ++ v))
  pure { default_role := role }

/-- Validation of an `AIConfig` from a section mapping: three plain string
fields with defaults and no validators. -/
def AIConfig.fromDict (d : List (String × String)) : Except ConfigError AIConfig :=
  pure { default_provider := (dlookup d "DEFAULT_PROVIDER").getD "xai",
         default_model := (dlookup d "DEFAULT_MODEL").getD "grok-2-1212",
         api_key := (dlookup d "API_KEY").getD "your_api_key" }

/-- The `SQLITE` block of `CONFIG_DEFAULTS` (constants.py lines 29-33). -/
def sqliteDefaults : List (String × CVal) :=
  [("DB_NAME", .str "app"), ("DB_DIR", .str "sqlite_data"),
   ("ALIASES", .strs ["sqlite"])]

/-- The `POSTGRESQL` block of `CONFIG_DEFAULTS` (constants.py lines 21-28). -/
def postgresqlDefaults : List (String × CVal) :=
  [("DB_NAME", .str "app"), ("DB_USER", .str "postgres"),
   ("DB_PASSWORD", .str "Postgres123!"), ("DB_HOST", .str "localhost"),
   ("DB_PORT", .intv 5432), ("ALIASES", .strs ["postgresql", "postgres"])]

/-- `CONFIG_DEFAULTS` restricted to its `DB_TYPES` entry (constants.py lines
20-34): note the keys are `POSTGRESQL` and `SQLITE` only. -/
def CONFIG_DEFAULTS_DB_TYPES : List (String × List (String × CVal)) :=
  [("POSTGRESQL", postgresqlDefaults), ("SQLITE", sqliteDefaults)]

/-- The alias list computed on config.py line 476: every `ALIASES` entry of
every `DB_TYPES` block, in block order. -/
def dbTypeAliases : List String :=
  ((CONFIG_DEFAULTS_DB_TYPES.map (fun p =>
    match dlookup p.2 "ALIASES" with
    | some (.strs l) => l
    | _ => [])).flatten)

/-- The section cleanup of config.py line 491 applied to one section: keys
are upper-cased and entries with an empty key or an empty value are dropped. -/
def cleanSection (d : List (String × String)) : List (String × String) :=
  (d.filter (fun kv => decide (0 < kv.1.length) && decide (0 < kv.2.length))).foldl
    (fun acc kv => dinsert acc (strUpper kv.1) kv.2) []

/-- The dict comprehension of config.py line 491: section names are
upper-cased, empty section names are dropped, and every section is cleaned by
`cleanSection`.  Duplicate upper-cased names behave like repeated dict
insertion (the later section wins). -/
def buildConfigDict (ini : List (String × List (String × String))) :
    List (String × List (String × String)) :=
  (ini.filter (fun s => decide (0 < s.1.length))).foldl
    (fun acc s => dinsert acc (strUpper s.1) (cleanSection s.2)) []

/-- Lift a string-valued section to the `CVal`-valued mapping used in the
DATABASE merge. -/
def liftStrDict (d : List (String × String)) : List (String × CVal) :=
  d.map (fun kv => (kv.1, CVal.str kv.2))

/-- Core of `Config.load_config` (config.py lines 494-542), taking the
sections it reads from the working mapping as arguments:

* the DATABASE section defaults to a bare sqlite DB_TYPE when missing (this
  replaces the whole section, as in the source), otherwise the configured
  DB_TYPE is validated against the alias list;
* the per-engine defaults are fetched with a plain dict subscript — a
  `KeyError` when `db_type.upper()` is not a key of `DB_TYPES`;
* the engine-specific section of the file is merged over the DATABASE
  section, which is merged over the defaults;
* the working mapping is then restricted to GLOBAL/DATABASE/USER/AI (the
  engine section is popped), so the `extra="forbid"` check of `Config` can
  never fire, and each sub-model validates its section (or its defaults). -/
def loadCore (fs : FS)
    (databaseSec sqliteSec postgresqlSec postgresSec : Option (List (String × String)))
    (globalSec userSec aiSec : Option (List (String × String))) :
    Except ConfigError Config := do
  let db_config ← match databaseSec with
    | none => pure [("DB_TYPE", "sqlite")]
    | some dc =>
      match dlookup dc "DB_TYPE" with
      | none => pure [("DB_TYPE", "sqlite")]
      | some t =>
        if dbTypeAliases.contains (strLower t) then pure dc
        else Except.error (.valueError ("Unsupported DB_TYPE: " ++ t))
  let db_type := strLower ((dlookup db_config "DB_TYPE").getD "")
  let db_defaults ← match dlookup CONFIG_DEFAULTS_DB_TYPES (strUpper db_type) with
    | none => Except.error (.keyError (strUpper db_type))
    | some d => pure d
  let db_params := (match strUpper db_type with
    | "SQLITE" => sqliteSec
    | "POSTGRESQL" => postgresqlSec
    | "POSTGRES" => postgresSec
    | _ => none).getD []
  let merged := dmerge (dmerge db_defaults (liftStrDict db_config)) (liftStrDict db_params)
  let g ← GlobalConfig.fromDict (globalSec.getD [])
  let db ← DatabaseConfig.fromDict fs merged
  let u ← UserConfig.fromDict (userSec.getD [])
  let ai ← AIConfig.fromDict (aiSec.getD [])
  pure { global_ := g, db := db, user := u, ai := ai }

/-- `Config.load_config` (config.py lines 465-542) on a parsed INI file.  A
missing or empty file parses to the empty section list. -/
def load_config (fs : FS) (ini : List (String × List (String × String))) :
    Except ConfigError Config :=
  loadCore fs
    (dlookup (buildConfigDict ini) "DATABASE")
    (dlookup (buildConfigDict ini) "SQLITE")
    (dlookup (buildConfigDict ini) "POSTGRESQL")
    (dlookup (buildConfigDict ini) "POSTGRES")
    (dlookup (buildConfigDict ini) "GLOBAL")
    (dlookup (buildConfigDict ini) "USER")
    (dlookup (buildConfigDict ini) "AI")

/-- State of `DatabaseManager` (db_utils.py lines 12-35) restricted to the
fields the lifecycle operations read and write.  Engine handles and session
factories are identified by numbers; `none` is Python `None`. -/
structure Manager where
  db_engine : String
  db_name : String
  db_dir : String
  db_file : String
  engine : Option Nat
  SessionLocal : Option Nat
deriving DecidableEq, Repr

/-- End state of `DatabaseManager.__init__` (db_utils.py lines 13-35): both
the engine handle and the session factory start as `None`. -/
def Manager.construct (db_engine db_name db_dir db_file : String) : Manager :=
  { db_engine := db_engine, db_name := db_name, db_dir := db_dir,
    db_file := db_file, engine := none, SessionLocal := none }

/-- Join path chunks back with slashes. -/
def joinWithSlash : List (List Char) → List Char
  | [] => []
  | [x] => x
  | x :: rest => x ++ '/' :: joinWithSlash rest

/-- `os.path.dirname` for slash-separated paths. -/
def dirname (p : String) : String :=
  String.mk (joinWithSlash ((splitChars '/' p.data).dropLast))

/-- The spec's connection invariant (spec §3): the engine handle and the
session factory are either both unset or both set. -/
def Manager.linked (m : Manager) : Bool :=
  m.engine.isSome == m.SessionLocal.isSome

/-- The path `DatabaseManager._connect` (db_utils.py lines 114-121) passes
to `os.makedirs` for a SQLite engine.  The source calls
`os.makedirs(self.db_file, exist_ok=True)`: the target is the database FILE
path itself, not the file's parent directory. -/
def Manager.connectMakedirsTarget (m : Manager) : Option String :=
  if m.db_engine = "sqlite" then some m.db_file else none

/-- `DatabaseManager._connect` (db_utils.py lines 114-121): for SQLite it
runs `os.makedirs(self.db_file, exist_ok=True)`, then creates a fresh engine
with `create_engine(self.db_url)` and returns it.  It assigns neither
`self.engine` nor `self.SessionLocal`, so the manager value is unchanged. -/
def Manager.connect (m : Manager) (fs : FS) (freshEngine : Nat) : Nat × FS :=
  (freshEngine, if m.db_engine = "sqlite" then fs.mkdirs m.db_file else fs)

/-- The lazy-connection pattern `if not self.engine: self.engine =
self._connect()` shared by `test_connection` (line 422), `validate_schema`
(line 263), `purge_data` (line 455) and `check_db_health` (line 665): a
fresh engine is assigned when the handle is unset; `self.SessionLocal` is
left untouched. -/
def Manager.ensureEngine (m : Manager) (freshEngine : Nat) : Manager :=
  if m.engine = none then { m with engine := some freshEngine } else m

/-- `DatabaseManager.setup_db` (db_utils.py lines 168-201): for SQLite it
repeats the `os.makedirs(self.db_file, exist_ok=True)` call (line 185), then
assigns a fresh engine and a fresh session factory.  Running migrations — or
the `Base.metadata.create_all` fallback when they raise; the exception is
caught at line 196 — touches neither the manager fields nor the modelled
filesystem, so `run_migrations` has no further effect here. -/
def Manager.setup_db (m : Manager) (fs : FS) (freshEngine freshSession : Nat)
    (run_migrations : Bool := true) : Manager × FS :=
  let _ := run_migrations
  let fs1 := if m.db_engine = "sqlite" then fs.mkdirs m.db_file else fs
  ({ m with engine := some freshEngine, SessionLocal := some freshSession }, fs1)

/-- `DatabaseManager.drop_db` (db_utils.py lines 330-393): dispose the live
engine if any, delete the SQLite database file when it exists (silently
proceeding when it does not), or drop the PostgreSQL database through the
administrative catalog; in every branch both handles are then reset to
`None` (lines 390-391). -/
def Manager.drop_db (m : Manager) (fs : FS) : Manager × FS :=
  let fs1 :=
    if m.db_engine = "sqlite" then
      if fs.files.contains m.db_file then fs.removeFile m.db_file else fs
    else fs
  ({ m with engine := none, SessionLocal := none }, fs1)

/-- The structured status report returned by `test_connection`. -/
structure ConnStatus where
  success : Bool
  engine : String
  database : String
  message : String
deriving DecidableEq, Repr

/-- `DatabaseManager.test_connection` (db_utils.py lines 406-437): connect
lazily via the shared pattern, try `SELECT 1` (its outcome is the `connOk`
parameter), and in the `finally` block dispose — but not clear — the
`self.engine` attribute, which therefore remains set. -/
def Manager.test_connection (m : Manager) (freshEngine : Nat) (connOk : Bool) :
    ConnStatus × Manager :=
  let m1 := m.ensureEngine freshEngine
  (if connOk then
    { success := true, engine := m.db_engine, database := m.db_name,
      message := "Connection successful" }
   else
    { success := false, engine := m.db_engine, database := m.db_name,
      message := "Connection failed" }, m1)

/-- State effect of `DatabaseManager.validate_schema` (db_utils.py lines
263-264): the shared lazy-connection pattern; the schema comparison itself
only reads the database inspector and the model metadata. -/
def Manager.validate_schema_effect (m : Manager) (freshEngine : Nat) : Manager :=
  m.ensureEngine freshEngine

/-- State effect of `DatabaseManager.check_db_health` (db_utils.py lines
665-666): the shared lazy-connection pattern. -/
def Manager.check_db_health_effect (m : Manager) (freshEngine : Nat) : Manager :=
  m.ensureEngine freshEngine

/-- Statements `purge_data` issues inside its `engine.begin()` block. -/
inductive PStmt where
  | pragmaOff
  | pragmaOn
  | deleteFrom (table : String)
  | truncateCascade (tables : List String)
deriving DecidableEq, Repr

/-- The table list `purge_data` (db_utils.py lines 449-460) deletes from:
every table except the caller's exclusions and the always-excluded
`alembic_version`. -/
def tablesToPurge (allTables : List String) (exclude_tables : Option (List String)) :
    List String :=
  let ex := match exclude_tables with
    | none => ["alembic_version"]
    | some l => l ++ ["alembic_version"]
  allTables.filter (fun t => !(ex.contains t))

/-- Issue the DELETE statements in table order; a table in `failing` raises,
which aborts the remainder of the block.  The result (ok or error) carries
the statements that were executed. -/
def runDeletes (failing : List String) : List String → List PStmt → Except (List PStmt) (List PStmt)
  | [], acc => .ok acc
  | t :: ts, acc =>
    if failing.contains t then .error acc
    else runDeletes failing ts (acc ++ [PStmt.deleteFrom t])

/-- `DatabaseManager.purge_data` (db_utils.py lines 439-485) as the sequence
of statements executed inside `engine.begin()`, plus the lazily-connected
manager.  For SQLite, `PRAGMA foreign_keys = OFF` is executed first, the
deletes follow in table order, and `PRAGMA foreign_keys = ON` is the next
sequential statement after the deletes: there is no try/finally inside the
block, so a delete that raises propagates out (the surrounding handler at
line 483 logs and re-raises) and the re-enable statement is never executed.
For PostgreSQL a single cascading truncate is issued when the table list is
non-empty. -/
def Manager.purge_data (m : Manager) (freshEngine : Nat) (allTables : List String)
    (exclude_tables : Option (List String)) (failing : List String) :
    Except (List PStmt) (List PStmt × Manager) :=
  if m.db_engine = "postgresql" || m.db_engine = "postgres" then
    if (tablesToPurge allTables exclude_tables).isEmpty then
      .ok ([], m.ensureEngine freshEngine)
    else
      .ok ([PStmt.truncateCascade (tablesToPurge allTables exclude_tables)],
        m.ensureEngine freshEngine)
  else
    match runDeletes failing (tablesToPurge allTables exclude_tables) [PStmt.pragmaOff] with
    | .ok trace => .ok (trace ++ [PStmt.pragmaOn], m.ensureEngine freshEngine)
    | .error trace => .error trace

/-- Exceptions raised by `DatabaseManager` operations. -/
inductive DBError where
  | fileNotFound (path : String)
deriving DecidableEq, Repr

/-- `DatabaseManager.backup_db` (db_utils.py lines 487-553).  The whole
backup logic sits under `if not backup_path:` (line 501): when the caller
passes a path, the body is skipped entirely and the function falls through
to its final `return None` (line 553).  In the default branch, SQLite copies
the database file to a timestamped path under `db_dir/backups` and returns
it, raising `FileNotFoundError` when the source file is missing (line 514);
PostgreSQL shells out to pg_dump (outcome `pgDumpOk`), removing the partial
file and returning `None` on failure. -/
def Manager.backup_db (m : Manager) (fs : FS) (timestamp : String)
    (backup_path : Option String) (pgDumpOk : Bool) :
    Except DBError (Option String × FS) :=
  match backup_path with
  | some _ => .ok (none, fs)
  | none =>
    let backup_dir := m.db_dir ++ "/backups"
    let fs1 := fs.mkdirs backup_dir
    if m.db_engine = "sqlite" then
      let bp := backup_dir ++ "/" ++ m.db_name ++ "_" ++ timestamp ++ ".db"
      if fs1.pathExists m.db_file then .ok (some bp, fs1.copyFile m.db_file bp)
      else .error (.fileNotFound m.db_file)
    else if m.db_engine = "postgresql" || m.db_engine = "postgres" then
      let bp := backup_dir ++ "/" ++ m.db_name ++ "_" ++ timestamp ++ ".sql"
      if pgDumpOk then .ok (some bp, fs1.addFile bp)
      else .ok (none, fs1)
    else .ok (none, fs1)

/-- `DatabaseManager.restore_db` (db_utils.py lines 555-644).  A missing
backup path is reported by printing and returning `False` (lines 568-570) —
no exception is raised.  Otherwise any live engine is disposed and both
handles cleared (lines 572-576), the backup is copied over the database file
and `setup_db(run_migrations=False)` reconnects (SQLite), or the database is
dropped, recreated, restored with pg_restore (outcome `pgRestoreOk`) and
reconnected (PostgreSQL).  Every exception inside the engine branches is
caught and converted to `False`, so the operation always returns a Bool. -/
def Manager.restore_db (m : Manager) (fs : FS) (backup_path : String)
    (freshEngine freshSession : Nat) (pgRestoreOk : Bool) :
    Bool × Manager × FS :=
  if !(fs.pathExists backup_path) then (false, m, fs)
  else
    let m1 := if m.engine.isSome then { m with engine := none, SessionLocal := none } else m
    if m.db_engine = "sqlite" then
      let fs1 := fs.mkdirs (dirname m.db_file)
      let fs2 := fs1.copyFile backup_path m.db_file
      let p := m1.setup_db fs2 freshEngine freshSession false
      (true, p.1, p.2)
    else
      let p := m1.drop_db fs
      if pgRestoreOk then
        let q := p.1.setup_db p.2 freshEngine freshSession false
        (true, q.1, q.2)
      else (false, p.1, p.2)

/-- Python error raised when `get_db` calls an unset session factory. -/
inductive PyError where
  | typeErrorNoneNotCallable
deriving DecidableEq, Repr

/-- Session acquisition step of `DatabaseManager.get_db` (db_utils.py lines
157-166): when `self.SessionLocal` is unset, the method calls
`self._connect()` but discards its result — no attribute is assigned — and
then evaluates `self.SessionLocal()`, which raises `TypeError` because
`None` is not callable.  When the factory is set, a session is produced from
it and the manager is unchanged. -/
def Manager.get_db_acquire (m : Manager) (fs : FS) (freshEngine : Nat) :
    Except PyError (Nat × Manager × FS) :=
  let fs1 := if m.SessionLocal = none then (m.connect fs freshEngine).2 else fs
  match m.SessionLocal with
  | none => .error .typeErrorNoneNotCallable
  | some factory => .ok (factory, m, fs1)

/-- Events of a session's lifetime as seen through `get_db`/`get_async_db`. -/
inductive SEvent where
  | sessionCreated
  | yielded
  | sessionClosed
deriving DecidableEq, Repr

/-- How the consumer leaves the scope of a generator-shaped dependency: it
exhausts the generator normally, it throws an exception into the suspended
`yield`, or it abandons the generator (`close()` or garbage collection
delivers `GeneratorExit` at the `yield`). -/
inductive GenExit where
  | normal
  | consumerRaises
  | abandoned
deriving DecidableEq, Repr

/-- Statements of a Python generator body, as needed for `get_db`: plain
event-emitting statements and a `yield` wrapped in a try/finally whose
finally suite emits the given events. -/
inductive GStmt where
  | emit (e : SEvent)
  | protectedYield (onExit : List SEvent)

/-- Execution of a generator body under Python's semantics: an exception or
`GeneratorExit` delivered at the `yield` runs the finally suite and then
propagates, skipping every later statement; normal resumption runs the
finally suite on leaving the try block and continues with the rest of the
body. -/
def runGen (x : GenExit) : List GStmt → List SEvent
  | [] => []
  | GStmt.emit e :: rest => e :: runGen x rest
  | GStmt.protectedYield onExit :: rest =>
    match x with
    | .normal => onExit ++ runGen x rest
    | _ => onExit

/-- Body of `DatabaseManager.get_db` (db_utils.py lines 157-166) after the
session is built: `try: yield db` with `finally: db.close()`. -/
def get_db_gen : List GStmt :=
  [GStmt.emit .sessionCreated, GStmt.protectedYield [.sessionClosed]]

/-- Body of `DatabaseManager.get_async_db` (db_utils.py lines 224-238): the
same protected yield, with `await session.close()` in the finally suite. -/
def get_async_db_gen : List GStmt :=
  [GStmt.emit .sessionCreated, GStmt.protectedYield [.sessionClosed]]

/-- Filesystem in which the relative directory `sqlite_data` already exists
and is writable. -/
def fsGood : FS :=
  { files := [], dirs := ["sqlite_data"], writable := ["sqlite_data"], creatable := [] }

/-- Fresh-checkout filesystem: `sqlite_data` does not exist yet, but
`os.makedirs` could create it. -/
def fsFresh : FS :=
  { files := [], dirs := [], writable := [], creatable := ["sqlite_data"] }

/-- A SQLite manager as `__init__` leaves it (db file under `data/`). -/
def m0sqlite : Manager :=
  Manager.construct "sqlite" "app_x_test" "data" "data/app_x_test.db"

/-- The same manager after an engine handle has been attached. -/
def m0withEngine : Manager := { m0sqlite with engine := some 7 }

/-- Filesystem in which the manager's SQLite database file exists. -/
def fsWithDb : FS :=
  { files := ["data/app_x_test.db"], dirs := [], writable := [], creatable := [] }

/-- Completely empty filesystem. -/
def fsEmpty : FS := { files := [], dirs := [], writable := [], creatable := [] }

/-- Whether an `Except` value is a success. -/
def isOkE {ε α : Type} : Except ε α → Bool
  | .ok _ => true
  | .error _ => false

/-- The database name of a successfully loaded configuration. -/
def dbNameOf : Except ConfigError Config → Option String
  | .ok c => some c.db.name
  | .error _ => none

/-- The database sub-configuration of a successfully loaded configuration. -/
def dbOf : Except ConfigError Config → Option DatabaseConfig
  | .ok c => some c.db
  | .error _ => none

theorem dlookup_filter_ne {α : Type} (k k2 : String) (h : k2 ≠ k) :
    ∀ d : List (String × α), dlookup (d.filter (fun kv => kv.1 != k)) k2 = dlookup d k2 := by
  intro d
  induction d with
  | nil => rfl
  | cons kv rest ih =>
    obtain ⟨k1, v⟩ := kv
    by_cases hk : k1 = k
    · have hb : ((k1, v).1 != k) = false := by simp [hk]
      have hk2 : k1 ≠ k2 := by rw [hk]; exact fun he => h he.symm
      simp [List.filter_cons, hb, dlookup, hk2, ih]
    · have hb : ((k1, v).1 != k) = true := by simp [hk]
      by_cases hk2 : k1 = k2
      · simp [List.filter_cons, hb, dlookup, hk2, h]
      · simp [List.filter_cons, hb, dlookup, hk2, ih]

theorem dlookup_dinsert_self {α : Type} (d : List (String × α)) (k : String) (v : α) :
    dlookup (dinsert d k v) k = some v := by
  simp [dinsert, dlookup]

theorem dlookup_dinsert_ne {α : Type} (d : List (String × α)) (k k2 : String) (v : α)
    (h : k2 ≠ k) : dlookup (dinsert d k v) k2 = dlookup d k2 := by
  have hk : k ≠ k2 := fun he => h he.symm
  simp [dinsert, dlookup, hk, dlookup_filter_ne k k2 h d]

theorem dlookup_foldl_sections_congr (k : String) :
    ∀ (ini : List (String × List (String × String)))
      (a b : List (String × List (String × String))),
      dlookup a k = dlookup b k →
      dlookup (ini.foldl (fun acc s => dinsert acc (strUpper s.1) (cleanSection s.2)) a) k =
      dlookup (ini.foldl (fun acc s => dinsert acc (strUpper s.1) (cleanSection s.2)) b) k := by
  intro ini
  induction ini with
  | nil => intro a b h; exact h
  | cons s rest ih =>
    intro a b h
    simp only [List.foldl_cons]
    apply ih
    by_cases hs : strUpper s.1 = k
    · rw [hs, dlookup_dinsert_self, dlookup_dinsert_self]
    · rw [dlookup_dinsert_ne _ _ _ _ (fun he => hs he.symm),
          dlookup_dinsert_ne _ _ _ _ (fun he => hs he.symm), h]

theorem bcd_cons_ne (s : String) (d : List (String × String))
    (ini : List (String × List (String × String))) (k : String) (h : strUpper s ≠ k) :
    dlookup (buildConfigDict ((s, d) :: ini)) k = dlookup (buildConfigDict ini) k := by
  unfold buildConfigDict
  by_cases hs : (0 : Nat) < s.length
  · have hb : (decide (0 < ((s, d) : String × List (String × String)).1.length)) = true := by
      simp [hs]
    simp only [List.filter_cons, hb, if_true, List.foldl_cons]
    apply dlookup_foldl_sections_congr
    rw [dlookup_dinsert_ne _ _ _ _ (fun he => h he.symm)]
  · have hb : (decide (0 < ((s, d) : String × List (String × String)).1.length)) = false := by
      simp [hs]
    simp only [List.filter_cons, hb, Bool.false_eq_true, if_false]

theorem loadCore_global_congr (fs : FS)
    (dbs sq pg pgr u ai : Option (List (String × String)))
    (a b : Option (List (String × String)))
    (h : GlobalConfig.fromDict (a.getD []) = GlobalConfig.fromDict (b.getD [])) :
    loadCore fs dbs sq pg pgr a u ai = loadCore fs dbs sq pg pgr b u ai := by
  unfold loadCore
  rw [h]

theorem globalFromDict_single_unknown (k v : String)
    (h : strUpper k ∉ (["ENV_MODE", "PORT", "LOG_LEVEL", "DEBUG", "SECRET_KEY"] : List String)) :
    GlobalConfig.fromDict (cleanSection [(k, v)]) = .ok GlobalConfig.defaults := by
  have h1 : strUpper k ≠ "ENV_MODE" := fun he => h (by rw [he]; simp)
  have h2 : strUpper k ≠ "PORT" := fun he => h (by rw [he]; simp)
  have h3 : strUpper k ≠ "LOG_LEVEL" := fun he => h (by rw [he]; simp)
  have h4 : strUpper k ≠ "DEBUG" := fun he => h (by rw [he]; simp)
  have h5 : strUpper k ≠ "SECRET_KEY" := fun he => h (by rw [he]; simp)
  unfold cleanSection
  by_cases hc : (decide (0 < k.length) && decide (0 < v.length)) = true
  · simp only [List.filter_cons, List.filter_nil, hc, if_true, List.foldl_cons, List.foldl_nil]
    simp [GlobalConfig.fromDict, dinsert, dlookup, h1, h2, h3, h4, h5, GlobalConfig.defaults]
    rfl
  · have hc2 : (decide (0 < ((k, v) : String × String).1.length) &&
        decide (0 < ((k, v) : String × String).2.length)) = false := by
      simpa using hc
    simp only [List.filter_cons, List.filter_nil, hc2, List.foldl_nil]
    simp [GlobalConfig.fromDict, dlookup, GlobalConfig.defaults]
    rfl

theorem runDeletes_nofail (ts : List String) (acc : List PStmt) :
    runDeletes [] ts acc = .ok (acc ++ ts.map PStmt.deleteFrom) := by
  induction ts generalizing acc with
  | nil => simp [runDeletes]
  | cons t rest ih => simp [runDeletes, ih]

theorem runDeletes_error_no_on (failing : List String) :
    ∀ (ts : List String) (acc tr : List PStmt),
      PStmt.pragmaOn ∉ acc → runDeletes failing ts acc = .error tr →
      PStmt.pragmaOn ∉ tr := by
  intro ts
  induction ts with
  | nil =>
    intro acc tr h he
    simp [runDeletes] at he
  | cons t rest ih =>
    intro acc tr h he
    by_cases hf : failing.contains t
    · simp only [runDeletes, hf, if_true] at he
      cases he
      exact h
    · simp only [runDeletes, hf, if_false, Bool.false_eq_true] at he
      exact ih (acc ++ [PStmt.deleteFrom t]) tr (by simp [h]) he

theorem linked_restore (m : Manager) (fs : FS) (bp : String) (e s : Nat) (pg : Bool)
    (h : m.linked = true) : ((m.restore_db fs bp e s pg).2.1).linked = true := by
  unfold Manager.restore_db
  by_cases hp : fs.pathExists bp
  · simp only [hp, Bool.not_true, Bool.false_eq_true, if_false]
    by_cases he : m.db_engine = "sqlite"
    · simp only [he, if_true]
      rfl
    · simp only [he, if_false]
      by_cases hr : pg
      · simp only [hr, if_true]
        rfl
      · simp only [hr, Bool.false_eq_true, if_false]
        rfl
  · simp only [hp, Bool.not_false, if_true]
    exact h

/-- C1: the claim says `DB_TYPE=postgres` is accepted and resolved with the
PostgreSQL defaults.  The code does accept `postgres` as an alias (it is in
the alias list built from `CONFIG_DEFAULTS`), but the defaults lookup
`CONFIG_DEFAULTS["DB_TYPES"][db_type.upper()]` then uses the key `POSTGRES`,
which is not a key of the `DB_TYPES` dict (its keys are `POSTGRESQL` and
`SQLITE`), so `load_config` dies with a `KeyError` instead of resolving. -/
theorem c1_postgres_alias_keyerror :
    dbTypeAliases.contains "postgres" = true ∧
    load_config fsGood [("DATABASE", [("DB_TYPE", "postgres")])] =
      .error (.keyError "POSTGRES") := by
  exact ⟨rfl, rfl⟩

/-- C2 counterexample: `test_connection`, run on a freshly constructed
(disconnected) manager, assigns the engine handle through the lazy-connection
pattern but never touches the session factory, and the `finally` block only
disposes — it does not clear — the handle.  Afterwards the engine is set and
the session factory unset, so the both-or-neither invariant is broken. -/
theorem c2_counterexample :
    Manager.linked ((m0sqlite.test_connection 7 true).2) = false := by
  exact rfl

/-- C2 amended: the both-unset-or-both-set invariant holds after
construction, `setup_db`, `drop_db` and `restore_db` (and `_connect` never
modifies the manager at all), but every operation that uses the
lazy-connection pattern — `test_connection`, `validate_schema`,
`purge_data`, `check_db_health` — sets the engine handle alone when invoked
while disconnected, leaving the session factory unset. -/
theorem c2_amended :
    (∀ eng nm dr fl, Manager.linked (Manager.construct eng nm dr fl) = true) ∧
    (∀ (m : Manager) (fs : FS) (e s : Nat) (r : Bool),
      Manager.linked (m.setup_db fs e s r).1 = true) ∧
    (∀ (m : Manager) (fs : FS), Manager.linked (m.drop_db fs).1 = true) ∧
    (∀ (m : Manager) (fs : FS) (bp : String) (e s : Nat) (pg : Bool),
      m.linked = true → Manager.linked ((m.restore_db fs bp e s pg).2.1) = true) ∧
    (∀ (m : Manager) (e : Nat), m.engine = none →
      (m.ensureEngine e).engine = some e ∧ (m.ensureEngine e).SessionLocal = m.SessionLocal) ∧
    (∀ (m : Manager) (e : Nat) (okc : Bool), (m.test_connection e okc).2 = m.ensureEngine e) ∧
    (∀ (m : Manager) (e : Nat), m.validate_schema_effect e = m.ensureEngine e) ∧
    (∀ (m : Manager) (e : Nat), m.check_db_health_effect e = m.ensureEngine e) := by
  refine ⟨fun _ _ _ _ => rfl, fun _ _ _ _ _ => rfl, fun _ _ => rfl,
    fun m fs bp e s pg h => linked_restore m fs bp e s pg h,
    fun m e h => ?_, fun _ _ _ => rfl, fun _ _ => rfl, fun _ _ => rfl⟩
  constructor
  · simp [Manager.ensureEngine, h]
  · simp [Manager.ensureEngine, h]

/-- C2 amended, applied at concrete inputs: the restore part at a missing
backup path on the fresh manager, and the breaking half of the invariant on
the fresh manager. -/
theorem c2_amended_witness :
    Manager.linked ((m0sqlite.restore_db fsGood "/nope.db" 1 2 true).2.1) = true ∧
    (m0sqlite.ensureEngine 7).engine = some 7 := by
  refine ⟨c2_amended.2.2.2.1 m0sqlite fsGood "/nope.db" 1 2 true (by decide), ?_⟩
  exact (c2_amended.2.2.2.2.1 m0sqlite 7 (by decide)).1

/-- C3 counterexample: (1) an unknown key inside the recognized `GLOBAL`
section does not fail — the load succeeds, because the pydantic sub-models
silently ignore extra keys (confirmed by the repository's own
`test_extra_fields`); (2) the `SQLITE` section, which is not one of
GLOBAL/DATABASE/USER/AI, is not silently discarded either — it changes the
resolved database name, because it is merged into DATABASE before the
restriction step. -/
theorem c3_counterexample :
    isOkE (load_config fsGood
      [("GLOBAL", [("EXTRA", "value")]), ("DATABASE", [("DB_TYPE", "sqlite")])]) = true ∧
    dbNameOf (load_config fsGood
      [("DATABASE", [("DB_TYPE", "sqlite")]), ("SQLITE", [("DB_NAME", "other")])]) =
      some "other" := by
  exact ⟨rfl, rfl⟩

/-- C3 amended: `load_config` silently discards any top-level section other
than GLOBAL, DATABASE, USER, AI and the engine-specific sections (SQLITE,
POSTGRESQL, POSTGRES), which are instead folded into DATABASE; and an
unknown key inside a recognized section is silently ignored rather than
rejected, because the pydantic sub-models keep the default
`extra="ignore"` behaviour (only the already-filtered top level has
`extra="forbid"`). -/
theorem c3_amended :
    (∀ (fs : FS) (s : String) (d : List (String × String))
      (ini : List (String × List (String × String))),
      strUpper s ∉ (["GLOBAL", "DATABASE", "USER", "AI", "SQLITE", "POSTGRESQL", "POSTGRES"] : List String) →
      load_config fs ((s, d) :: ini) = load_config fs ini) ∧
    (∀ (k v : String),
      strUpper k ∉ (["ENV_MODE", "PORT", "LOG_LEVEL", "DEBUG", "SECRET_KEY"] : List String) →
      load_config fsGood [("GLOBAL", [(k, v)]), ("DATABASE", [("DB_TYPE", "sqlite")])] =
        load_config fsGood [("DATABASE", [("DB_TYPE", "sqlite")])]) := by
  constructor
  · intro fs s d ini h
    have h1 : strUpper s ≠ "GLOBAL" := fun he => h (by rw [he]; simp)
    have h2 : strUpper s ≠ "DATABASE" := fun he => h (by rw [he]; simp)
    have h3 : strUpper s ≠ "USER" := fun he => h (by rw [he]; simp)
    have h4 : strUpper s ≠ "AI" := fun he => h (by rw [he]; simp)
    have h5 : strUpper s ≠ "SQLITE" := fun he => h (by rw [he]; simp)
    have h6 : strUpper s ≠ "POSTGRESQL" := fun he => h (by rw [he]; simp)
    have h7 : strUpper s ≠ "POSTGRES" := fun he => h (by rw [he]; simp)
    unfold load_config
    rw [bcd_cons_ne s d ini "DATABASE" h2, bcd_cons_ne s d ini "SQLITE" h5,
        bcd_cons_ne s d ini "POSTGRESQL" h6, bcd_cons_ne s d ini "POSTGRES" h7,
        bcd_cons_ne s d ini "GLOBAL" h1, bcd_cons_ne s d ini "USER" h3,
        bcd_cons_ne s d ini "AI" h4]
  · intro k v h
    have e1 : dlookup (buildConfigDict
        [("GLOBAL", [(k, v)]), ("DATABASE", [("DB_TYPE", "sqlite")])]) "GLOBAL" =
        some (cleanSection [(k, v)]) := rfl
    unfold load_config
    rw [e1]
    exact loadCore_global_congr fsGood _ _ _ _ _ _ _ _
      (by rw [Option.getD_some, globalFromDict_single_unknown k v h]; rfl)

/-- C3 amended, applied at concrete inputs: an unrecognized `LOGGING`
section and an unknown `EXTRA` key inside GLOBAL both leave the result of
`load_config` unchanged. -/
theorem c3_amended_witness :
    load_config fsGood [("LOGGING", [("LEVEL", "info")]), ("DATABASE", [("DB_TYPE", "sqlite")])] =
      load_config fsGood [("DATABASE", [("DB_TYPE", "sqlite")])] ∧
    load_config fsGood [("GLOBAL", [("EXTRA", "value")]), ("DATABASE", [("DB_TYPE", "sqlite")])] =
      load_config fsGood [("DATABASE", [("DB_TYPE", "sqlite")])] := by
  refine ⟨c3_amended.1 fsGood "LOGGING" [("LEVEL", "info")]
    [("DATABASE", [("DB_TYPE", "sqlite")])] (by decide), ?_⟩
  exact c3_amended.2 "EXTRA" "value" (by decide)

/-- C4 counterexample: `restore_db` on a path that does not exist prints a
message and returns `False` with the manager and filesystem untouched (lines
568-570 of db_utils.py); no `BackupNotFound` error is raised or propagated —
the repository's own `test_restore_db_sqlite_not_exists` asserts this
`False` return.  The embedded operation is total (every exception in its
branches is caught in the source), so the normal tuple return below is
exactly the observable outcome. -/
theorem c4_counterexample :
    m0sqlite.restore_db fsGood "/missing/backup.db" 1 2 true = (false, m0sqlite, fsGood) := by
  exact rfl

/-- C4 amended: for every path that does not exist on disk, `restore_db`
returns the structured failure `False` and leaves the manager state and the
filesystem unchanged; missing backup source is a downgraded structured
result, not a propagated error. -/
theorem c4_amended (m : Manager) (fs : FS) (bp : String) (e s : Nat) (pg : Bool)
    (h : fs.pathExists bp = false) :
    m.restore_db fs bp e s pg = (false, m, fs) := by
  unfold Manager.restore_db
  simp [h]

/-- C4 amended, applied at a concrete missing path. -/
theorem c4_amended_witness :
    m0sqlite.restore_db fsGood "/missing2.db" 1 2 true = (false, m0sqlite, fsGood) := by
  exact c4_amended m0sqlite fsGood "/missing2.db" 1 2 true (by decide)

/-- C5: for a SQLite engine, only the default (timestamped) branch of
`backup_db` copies the file and raises `FileNotFoundError` on a missing
source.  When the caller passes an explicit `backup_path`, the whole backup
body is skipped (`if not backup_path:`) and the function falls through to
`return None`: no copy, no error, no returned path — contradicting both the
claim and the repository's own `test_backup_db_custom_path`. -/
theorem c5_custom_path_skipped :
    m0sqlite.backup_db fsWithDb "20230101_120000" (some "/custom/backup/path/backup.db") true =
      .ok (none, fsWithDb) ∧
    m0sqlite.backup_db fsWithDb "20230101_120000" none true =
      .ok (some "data/backups/app_x_test_20230101_120000.db",
        { files := ["data/backups/app_x_test_20230101_120000.db", "data/app_x_test.db"],
          dirs := ["data/backups"], writable := ["data/backups"], creatable := [] }) ∧
    m0sqlite.backup_db fsEmpty "20230101_120000" none true =
      .error (.fileNotFound "data/app_x_test.db") := by
  exact ⟨rfl, rfl, rfl⟩

/-- C6: for SQLite, `_connect` does not ensure the parent directory of the
database file — it calls `os.makedirs(self.db_file, exist_ok=True)` on the
database FILE path itself (the repository's own `test_connect` asserts
`os.path.dirname(db_file)` instead); and `_connect` unconditionally creates
and returns a fresh engine, ignoring `self.engine`, so an already-connected
manager does not get its existing handle back. -/
theorem c6_connect_wrong_dir_and_fresh_engine :
    m0sqlite.connectMakedirsTarget = some "data/app_x_test.db" ∧
    dirname "data/app_x_test.db" = "data" ∧
    ("data/app_x_test.db" : String) ≠ "data" ∧
    (m0withEngine.connect fsGood 42).1 = 42 ∧
    m0withEngine.engine = some 7 := by
  exact ⟨rfl, rfl, by decide, rfl, rfl⟩

/-- C7 counterexample: when the delete on `table2` raises, `purge_data`
propagates the error and the executed statement trace ends before the
`PRAGMA foreign_keys = ON` statement — the re-enable is a sequential
statement after the deletes, not a guaranteed-cleanup path. -/
theorem c7_counterexample :
    m0sqlite.purge_data 7 ["table1", "table2", "alembic_version"] none ["table2"] =
      .error [PStmt.pragmaOff, PStmt.deleteFrom "table1"] ∧
    PStmt.pragmaOn ∉ [PStmt.pragmaOff, PStmt.deleteFrom "table1"] := by
  exact ⟨rfl, by decide⟩

/-- C7 amended: `purge_data` targets exactly the tables that are neither
`alembic_version` nor caller-excluded, issuing only row deletions (the
schema is untouched); on SQLite the foreign-key re-enable statement runs
after a fully successful delete sequence, but when a delete fails partway
the exception propagates and the re-enable statement is never executed. -/
theorem c7_amended :
    (∀ (allTables : List String) (ex : Option (List String)) (t : String),
      t ∈ tablesToPurge allTables ex ↔
        t ∈ allTables ∧ t ∉ (ex.getD [] ++ ["alembic_version"])) ∧
    (∀ (m : Manager) (e : Nat) (allTables : List String) (ex : Option (List String)),
      m.db_engine = "sqlite" →
      m.purge_data e allTables ex [] =
        .ok ([PStmt.pragmaOff] ++ (tablesToPurge allTables ex).map PStmt.deleteFrom ++
          [PStmt.pragmaOn], m.ensureEngine e)) ∧
    (∀ (m : Manager) (e : Nat) (allTables : List String) (ex : Option (List String))
      (failing : List String) (tr : List PStmt),
      m.db_engine = "sqlite" →
      m.purge_data e allTables ex failing = .error tr → PStmt.pragmaOn ∉ tr) := by
  refine ⟨?_, ?_, ?_⟩
  · intro allTables ex t
    cases ex <;> simp [tablesToPurge, List.mem_filter]
  · intro m e allTables ex h
    simp [Manager.purge_data, h, runDeletes_nofail]
  · intro m e allTables ex failing tr h he
    unfold Manager.purge_data at he
    rw [h] at he
    have hpg : (decide (("sqlite" : String) = "postgresql") ||
        decide (("sqlite" : String) = "postgres")) = false := by decide
    rw [hpg] at he
    simp only [Bool.false_eq_true, if_false] at he
    revert he
    cases hr : runDeletes failing (tablesToPurge allTables ex) [PStmt.pragmaOff] with
    | ok tra =>
      intro he
      simp at he
    | error tra =>
      intro he
      have htr : tra = tr := by simpa using he
      rw [← htr]
      exact runDeletes_error_no_on failing (tablesToPurge allTables ex)
        [PStmt.pragmaOff] tra (by decide) hr

/-- C7 amended, applied at concrete inputs: the success trace for two tables
with `alembic_version` excluded, and the failure trace of the
counterexample input, which does not contain the re-enable statement. -/
theorem c7_amended_witness :
    ("table1" ∈ tablesToPurge ["table1", "alembic_version"] none) ∧
    m0sqlite.purge_data 8 ["table1", "table2", "alembic_version"] none [] =
      .ok ([PStmt.pragmaOff] ++
        (tablesToPurge ["table1", "table2", "alembic_version"] none).map PStmt.deleteFrom ++
        [PStmt.pragmaOn], m0sqlite.ensureEngine 8) ∧
    PStmt.pragmaOn ∉ ([PStmt.pragmaOff, PStmt.deleteFrom "table1"] : List PStmt) := by
  refine ⟨(c7_amended.1 ["table1", "alembic_version"] none "table1").mpr (by decide), ?_, ?_⟩
  · exact c7_amended.2.1 m0sqlite 8 ["table1", "table2", "alembic_version"] none rfl
  · exact c7_amended.2.2 m0sqlite 9 ["table1", "table2", "alembic_version"] none ["table2"]
      [PStmt.pragmaOff, PStmt.deleteFrom "table1"] rfl rfl

/-- C8: for every way the consumer leaves the scope — normal exhaustion, an
exception thrown into the suspended yield, or abandonment of the generator —
the finally suite of `get_db` and `get_async_db` runs and the session-close
event is in the emitted trace. -/
theorem c8_session_closed_every_exit (x : GenExit) :
    SEvent.sessionClosed ∈ runGen x get_db_gen ∧
    SEvent.sessionClosed ∈ runGen x get_async_db_gen := by
  cases x <;> exact ⟨by decide, by decide⟩

/-- C8 applied at a concrete exit path (generator abandonment). -/
theorem c8_witness :
    SEvent.sessionClosed ∈ runGen GenExit.abandoned get_db_gen :=
  (c8_session_closed_every_exit GenExit.abandoned).1

/-- C9: on a missing or empty configuration file the load succeeds with
`db.type = "sqlite"` and `db.name = "app"`, and an empty-string field is
dropped at parse time so the default applies (third conjunct); but
`db.dir = "sqlite_data"` only when the directory already exists and is
writable (second conjunct).  On a fresh filesystem, where `validate_dir` has
to create `sqlite_data`, the validator's create-branch falls through without
a return and yields `None`, so `db.dir` is unset (first conjunct) —
contradicting the claim and the repository's own `test_empty_file`. -/
theorem c9_fresh_fs_dir_none :
    dbOf (load_config fsFresh []) =
      some { type := "sqlite", name := "app", dir := none, user := none,
             password := none, host := none, port := none } ∧
    dbOf (load_config fsGood []) =
      some { type := "sqlite", name := "app", dir := some "sqlite_data", user := none,
             password := none, host := none, port := none } ∧
    dbOf (load_config fsGood [("DATABASE", [("DB_TYPE", "sqlite"), ("DB_NAME", "")])]) =
      some { type := "sqlite", name := "app", dir := some "sqlite_data", user := none,
             password := none, host := none, port := none } := by
  exact ⟨rfl, rfl, rfl⟩

/-- C10: when `get_db` runs before any `setup_db`, its lazy branch calls
`_connect()`, which assigns neither the engine attribute nor the session
factory; the factory is therefore still `None` when `get_db` immediately
calls it, and acquiring the session fails with a `TypeError` instead of
lazily connecting. -/
theorem c10_get_db_without_setup_fails (m : Manager) (fs : FS) (e : Nat)
    (h : m.SessionLocal = none) :
    m.get_db_acquire fs e = .error .typeErrorNoneNotCallable := by
  unfold Manager.get_db_acquire
  simp [h]

/-- C10 applied to the freshly constructed manager. -/
theorem c10_witness :
    m0sqlite.get_db_acquire fsGood 7 = .error .typeErrorNoneNotCallable :=
  c10_get_db_without_setup_fails m0sqlite fsGood 7 rfl

end ArticleWriter
